import Mathlib

/-!
Verification of the interrupt / stack-guard subsystem of the repository
(`src/libs/v8/src/execution.h`) and its lock primitives
(`src/libs/v8/src/platform/mutex.h`).

The repository ships only the two headers.  Everything that has an inline body
in a header (`should_postpone_interrupts`, `has_pending_interrupts`,
`ArchiveSpacePerThread`, the `InterruptFlag` enumerators, the
`kInterruptLimit`/`kIllegalLimit` constants, `LockGuard`) is embedded directly
from that source.  The method bodies that live in the missing `execution.cc`
(`SetStackLimit`, the interrupt request/clear operations, the postpone scope,
archive/restore, the overflow-vs-interrupt classification) are modelled from
the specification, as indicated by their doc comments.

We model the 64-bit (`V8_TARGET_ARCH_X64`) branch of the constants; the 32-bit
branch differs only in the numeric values of `kInterruptLimit` and
`kIllegalLimit` and none of the results below depend on the choice.
Machine words (`uintptr_t`) and C++ `int` counters are modelled as `Nat`;
none of the guard operations performs wrapping arithmetic on them.
-/

namespace V8

/-- `enum InterruptFlag` from execution.h: `INTERRUPT = 1 << 0`. -/
def INTERRUPT : Nat := 1 <<< 0

/-- `enum InterruptFlag`: `DEBUGBREAK = 1 << 1`. -/
def DEBUGBREAK : Nat := 1 <<< 1

/-- `enum InterruptFlag`: `DEBUGCOMMAND = 1 << 2`. -/
def DEBUGCOMMAND : Nat := 1 <<< 2

/-- `enum InterruptFlag`: `PREEMPT = 1 << 3`. -/
def PREEMPT : Nat := 1 <<< 3

/-- `enum InterruptFlag`: `TERMINATE = 1 << 4`. -/
def TERMINATE : Nat := 1 <<< 4

/-- `enum InterruptFlag`: `GC_REQUEST = 1 << 5`. -/
def GC_REQUEST : Nat := 1 <<< 5

/-- `enum InterruptFlag`: `FULL_DEOPT = 1 << 6`. -/
def FULL_DEOPT : Nat := 1 <<< 6

/-- `enum InterruptFlag`: `INSTALL_CODE = 1 << 7`. -/
def INSTALL_CODE : Nat := 1 <<< 7

/-- `enum InterruptFlag`: `API_INTERRUPT = 1 << 8`. -/
def API_INTERRUPT : Nat := 1 <<< 8

/-- `enum InterruptFlag`: `DEOPT_MARKED_ALLOCATION_SITES = 1 << 9`. -/
def DEOPT_MARKED_ALLOCATION_SITES : Nat := 1 <<< 9

/-- The closed set of interrupt causes, in declaration order of the
`InterruptFlag` enum in execution.h. -/
def interruptCauses : List Nat :=
  [INTERRUPT, DEBUGBREAK, DEBUGCOMMAND, PREEMPT, TERMINATE,
   GC_REQUEST, FULL_DEOPT, INSTALL_CODE, API_INTERRUPT,
   DEOPT_MARKED_ALLOCATION_SITES]

/-- `StackGuard::kInterruptLimit` for the x64/arm64 branch:
`V8_UINT64_C(0xfffffffffffffffe)` (execution.h line 255).  This is the
sentinel stored into the effective limits while an interrupt is pending. -/
def kInterruptLimit : Nat := 0xfffffffffffffffe

/-- `StackGuard::kIllegalLimit` for the x64/arm64 branch:
`V8_UINT64_C(0xfffffffffffffff8)` (execution.h line 256). -/
def kIllegalLimit : Nat := 0xfffffffffffffff8

/-- `StackGuard::ThreadLocal` (execution.h lines 262-292): the per-thread
guard record.  `uintptr_t` and pointer fields are modelled as `Nat`
(the callback and its data pointer are opaque, so any value-faithful
encoding works); the three C++ `int` counters are likewise `Nat`, as the
code only ever keeps them non-negative. -/
structure ThreadLocal where
  real_jslimit_ : Nat
  jslimit_ : Nat
  real_climit_ : Nat
  climit_ : Nat
  nesting_ : Nat
  postpone_interrupts_nesting_ : Nat
  interrupt_flags_ : Nat
  interrupt_callback_ : Nat
  interrupt_callback_data_ : Nat
deriving DecidableEq

/-- `StackGuard::should_postpone_interrupts` (execution.h lines 239-241):
`return thread_local_.postpone_interrupts_nesting_ > 0;`. -/
def should_postpone_interrupts (t : ThreadLocal) : Bool :=
  decide (t.postpone_interrupts_nesting_ > 0)

/-- `StackGuard::has_pending_interrupts` (execution.h lines 231-236).  The
body is `ASSERT(!should_postpone_interrupts(lock)); return
thread_local_.interrupt_flags_ != 0;`.  A firing `ASSERT` is modelled as
`none`; a normal return as `some`. -/
def has_pending_interrupts (t : ThreadLocal) : Option Bool :=
  if should_postpone_interrupts t then none
  else some (decide (t.interrupt_flags_ ≠ 0))

/-- Modelled from the spec (the body of `StackGuard::set_interrupt_limits`
is in the missing execution.cc): both effective limits are set to the
sentinel `kInterruptLimit` so that the next inline stack check traps. -/
def set_interrupt_limits (t : ThreadLocal) : ThreadLocal :=
  { t with jslimit_ := kInterruptLimit, climit_ := kInterruptLimit }

/-- Modelled from the spec (the body of `StackGuard::reset_limits` is in the
missing execution.cc): "restores `js_limit = real_js_limit`,
`native_limit = real_native_limit`". -/
def reset_limits (t : ThreadLocal) : ThreadLocal :=
  { t with jslimit_ := t.real_jslimit_, climit_ := t.real_climit_ }

/-- Modelled from the spec (the bodies of `StackGuard::Interrupt`,
`Preempt`, `TerminateExecution`, `RequestGC`, ... are in the missing
execution.cc): "`RequestInterrupt(cause)`: sets the bit for `cause` in
`pending_causes`; if `postpone_depth == 0`, also [sets]
`js_limit`/`native_limit` to the sentinel value ...  If
`postpone_depth > 0`, only the bit is set — limits are left untouched". -/
def RequestInterrupt (cause : Nat) (t : ThreadLocal) : ThreadLocal :=
  let t' := { t with interrupt_flags_ := t.interrupt_flags_ ||| cause }
  if t'.postpone_interrupts_nesting_ = 0 then set_interrupt_limits t' else t'

/-- `flags &= ~cause` on the non-negative bit patterns used for
`interrupt_flags_`: subtracting `flags &&& cause` clears exactly the bits
shared with `cause`. -/
def clearFlagBits (flags cause : Nat) : Nat := flags - (flags &&& cause)

/-- Modelled from the spec (the body of `StackGuard::Continue(after_what)` is
in the missing execution.cc): "`ClearInterrupt(cause)`: clears the bit; if
no bits remain set, restores `js_limit = real_js_limit`,
`native_limit = real_native_limit`". -/
def Continue (cause : Nat) (t : ThreadLocal) : ThreadLocal :=
  let t' := { t with interrupt_flags_ := clearFlagBits t.interrupt_flags_ cause }
  if t'.interrupt_flags_ = 0 then reset_limits t' else t'

/-- Modelled from the spec (the body of `StackGuard::SetStackLimit` is in the
missing execution.cc): "sets `real_js_limit`/`real_native_limit` from a
caller-supplied ... address ...; if no interrupt is currently pending, also
mirrors into the effective limit pair". -/
def SetStackLimit (limit : Nat) (t : ThreadLocal) : ThreadLocal :=
  let t' := { t with real_jslimit_ := limit, real_climit_ := limit }
  if t.interrupt_flags_ = 0 then { t' with jslimit_ := limit, climit_ := limit }
  else t'

/-- Modelled from the spec: entering a `PostponeInterruptsScope` increments
`postpone_interrupts_nesting_` (the scope type is only a `friend`
declaration in execution.h; its body is in the missing isolate sources). -/
def PostponeEnter (t : ThreadLocal) : ThreadLocal :=
  { t with postpone_interrupts_nesting_ := t.postpone_interrupts_nesting_ + 1 }

/-- Modelled from the spec: leaving a `PostponeInterruptsScope` decrements
the nesting counter, and "on exit to zero with a non-empty
`pending_causes`, re-applies the sentinel ... so the next stack check still
traps (a postponed interrupt is never silently dropped)". -/
def PostponeExit (t : ThreadLocal) : ThreadLocal :=
  let t' := { t with postpone_interrupts_nesting_ := t.postpone_interrupts_nesting_ - 1 }
  if t'.postpone_interrupts_nesting_ = 0 ∧ t'.interrupt_flags_ ≠ 0 then
    set_interrupt_limits t'
  else t'

/-- Modelled from the spec (the body of
`StackGuard::RequestInterrupt(InterruptCallback, void*)` is in the missing
execution.cc): "stores the callback/data pair and raises the
`api-interrupt` cause"; raising a cause follows `RequestInterrupt`.
The callback and data pointers are opaque `Nat` handles. -/
def RequestInterruptApi (callback data : Nat) (t : ThreadLocal) : ThreadLocal :=
  RequestInterrupt API_INTERRUPT
    { t with interrupt_callback_ := callback, interrupt_callback_data_ := data }

/-- Outcome of the trapped stack-check path. -/
inductive TrapClass where
  | stackOverflow
  | interrupt
deriving DecidableEq

/-- Modelled from the spec (the bodies of `Execution::HandleStackGuardInterrupt`
and `StackGuard::IsStackOverflow` are in the missing execution.cc):
"Determines whether the trap is a genuine stack overflow (current stack
pointer below `real_js_limit`/`real_native_limit`) versus an interrupt
masquerading as overflow (pointer still within real bounds ...)". -/
def HandleStackGuardInterrupt (sp : Nat) (t : ThreadLocal) : TrapClass :=
  if sp < t.real_jslimit_ then TrapClass.stackOverflow else TrapClass.interrupt

/-- Modelled from the spec ("`InitThread`/`ClearThread` (re)initialize or
reset the per-thread record"; the body of `ThreadLocal::Clear` is in the
missing execution.cc): the cleared record, with all four limits at the
source constant `kIllegalLimit` and all counters, flags and callback
fields zeroed. -/
def initialThreadLocal : ThreadLocal :=
  { real_jslimit_ := kIllegalLimit
  , jslimit_ := kIllegalLimit
  , real_climit_ := kIllegalLimit
  , climit_ := kIllegalLimit
  , nesting_ := 0
  , postpone_interrupts_nesting_ := 0
  , interrupt_flags_ := 0
  , interrupt_callback_ := 0
  , interrupt_callback_data_ := 0 }

/-- One locked mutation of the per-thread guard record.  Each constructor is
one public operation of the subsystem; side conditions record what C++
guarantees by construction: stack-limit addresses are real stack addresses
(below the sentinel, which the spec requires to be "unreachable as a real
stack address"), requested/cleared causes come from the `InterruptFlag`
enum, and a postpone-scope exit is always paired with an earlier enter. -/
inductive Step : ThreadLocal → ThreadLocal → Prop where
  | setStackLimit (t : ThreadLocal) (l : Nat) (hl : l ≤ kInterruptLimit) :
      Step t (SetStackLimit l t)
  | request (t : ThreadLocal) (c : Nat) (hc : c ∈ interruptCauses) :
      Step t (RequestInterrupt c t)
  | requestApi (t : ThreadLocal) (cb d : Nat) :
      Step t (RequestInterruptApi cb d t)
  | continueAfter (t : ThreadLocal) (c : Nat) (hc : c ∈ interruptCauses) :
      Step t (Continue c t)
  | postponeEnter (t : ThreadLocal) :
      Step t (PostponeEnter t)
  | postponeExit (t : ThreadLocal) (hp : 0 < t.postpone_interrupts_nesting_) :
      Step t (PostponeExit t)

/-- Guard records reachable from the cleared record by locked mutations. -/
inductive Reachable : ThreadLocal → Prop where
  | init : Reachable initialThreadLocal
  | step {t t' : ThreadLocal} : Reachable t → Step t t' → Reachable t'

/-- Inductive invariant of the guard state machine: real limits stay below
the sentinel, the effective limits equal the real ones whenever no cause
is pending, and equal the sentinel whenever a cause is pending and
delivery is not postponed. -/
def GuardInv (t : ThreadLocal) : Prop :=
  t.real_jslimit_ ≤ kInterruptLimit ∧
  t.real_climit_ ≤ kInterruptLimit ∧
  (t.interrupt_flags_ = 0 →
    t.jslimit_ = t.real_jslimit_ ∧ t.climit_ = t.real_climit_) ∧
  (t.interrupt_flags_ ≠ 0 → t.postpone_interrupts_nesting_ = 0 →
    t.jslimit_ = kInterruptLimit ∧ t.climit_ = kInterruptLimit)

/-! ### Helper lemmas about the guard operations -/

lemma mem_interruptCauses_ne_zero {c : Nat} (hc : c ∈ interruptCauses) : c ≠ 0 := by
  fin_cases hc <;> decide

lemma or_ne_zero_right (a c : Nat) (hc : c ≠ 0) : a ||| c ≠ 0 := by
  intro h
  obtain ⟨i, hi⟩ := Nat.ne_zero_implies_bit_true hc
  have hbit : (a ||| c).testBit i = true := by
    simp [Nat.testBit_or, hi]
  rw [h] at hbit
  simp [Nat.zero_testBit] at hbit

lemma clearFlagBits_zero (c : Nat) : clearFlagBits 0 c = 0 := by
  simp [clearFlagBits]

lemma RequestInterrupt_interrupt_flags (c : Nat) (t : ThreadLocal) :
    (RequestInterrupt c t).interrupt_flags_ = t.interrupt_flags_ ||| c := by
  unfold RequestInterrupt set_interrupt_limits
  dsimp only
  split <;> rfl

lemma RequestInterrupt_real_jslimit (c : Nat) (t : ThreadLocal) :
    (RequestInterrupt c t).real_jslimit_ = t.real_jslimit_ := by
  unfold RequestInterrupt set_interrupt_limits
  dsimp only
  split <;> rfl

lemma RequestInterrupt_real_climit (c : Nat) (t : ThreadLocal) :
    (RequestInterrupt c t).real_climit_ = t.real_climit_ := by
  unfold RequestInterrupt set_interrupt_limits
  dsimp only
  split <;> rfl

lemma RequestInterrupt_postpone (c : Nat) (t : ThreadLocal) :
    (RequestInterrupt c t).postpone_interrupts_nesting_ =
      t.postpone_interrupts_nesting_ := by
  unfold RequestInterrupt set_interrupt_limits
  dsimp only
  split <;> rfl

lemma RequestInterrupt_callback (c : Nat) (t : ThreadLocal) :
    (RequestInterrupt c t).interrupt_callback_ = t.interrupt_callback_ := by
  unfold RequestInterrupt set_interrupt_limits
  dsimp only
  split <;> rfl

lemma RequestInterrupt_callback_data (c : Nat) (t : ThreadLocal) :
    (RequestInterrupt c t).interrupt_callback_data_ = t.interrupt_callback_data_ := by
  unfold RequestInterrupt set_interrupt_limits
  dsimp only
  split <;> rfl

lemma RequestInterrupt_limits_of_postponed (c : Nat) (t : ThreadLocal)
    (hp : 0 < t.postpone_interrupts_nesting_) :
    (RequestInterrupt c t).jslimit_ = t.jslimit_ ∧
    (RequestInterrupt c t).climit_ = t.climit_ := by
  unfold RequestInterrupt set_interrupt_limits
  rw [if_neg (by simpa using Nat.pos_iff_ne_zero.mp hp)]
  exact ⟨rfl, rfl⟩

lemma RequestInterrupt_limits_of_not_postponed (c : Nat) (t : ThreadLocal)
    (hp : t.postpone_interrupts_nesting_ = 0) :
    (RequestInterrupt c t).jslimit_ = kInterruptLimit ∧
    (RequestInterrupt c t).climit_ = kInterruptLimit := by
  unfold RequestInterrupt set_interrupt_limits
  rw [if_pos (by simpa using hp)]
  exact ⟨rfl, rfl⟩

/-! ### The inductive invariant (claim C1) -/

lemma guardInv_initial : GuardInv initialThreadLocal := by
  unfold GuardInv
  exact ⟨by decide, by decide, fun _ => ⟨rfl, rfl⟩, fun h _ => absurd rfl h⟩

lemma guardInv_SetStackLimit {t : ThreadLocal} (l : Nat)
    (hl : l ≤ kInterruptLimit) (h : GuardInv t) : GuardInv (SetStackLimit l t) := by
  obtain ⟨h1, h2, h3, h4⟩ := h
  unfold GuardInv SetStackLimit
  by_cases hf : t.interrupt_flags_ = 0
  · rw [if_pos hf]
    exact ⟨hl, hl, fun _ => ⟨rfl, rfl⟩, fun hne _ => absurd hf hne⟩
  · rw [if_neg hf]
    exact ⟨hl, hl, fun hz => absurd hz hf, fun _ hp => h4 hf hp⟩

lemma guardInv_RequestInterrupt {t : ThreadLocal} (c : Nat) (hc : c ≠ 0)
    (h : GuardInv t) : GuardInv (RequestInterrupt c t) := by
  obtain ⟨h1, h2, h3, h4⟩ := h
  unfold GuardInv RequestInterrupt set_interrupt_limits
  by_cases hp : t.postpone_interrupts_nesting_ = 0
  · rw [if_pos (by simpa using hp)]
    exact ⟨h1, h2, fun hz => absurd hz (or_ne_zero_right _ _ hc),
      fun _ _ => ⟨rfl, rfl⟩⟩
  · rw [if_neg (by simpa using hp)]
    exact ⟨h1, h2, fun hz => absurd hz (or_ne_zero_right _ _ hc),
      fun _ hp0 => absurd hp0 hp⟩

lemma guardInv_RequestInterruptApi {t : ThreadLocal} (cb d : Nat)
    (h : GuardInv t) : GuardInv (RequestInterruptApi cb d t) := by
  have h0 : GuardInv
      { t with interrupt_callback_ := cb, interrupt_callback_data_ := d } := h
  exact guardInv_RequestInterrupt API_INTERRUPT (by decide) h0

lemma guardInv_Continue {t : ThreadLocal} (c : Nat) (h : GuardInv t) :
    GuardInv (Continue c t) := by
  obtain ⟨h1, h2, h3, h4⟩ := h
  unfold GuardInv Continue reset_limits
  by_cases hz : clearFlagBits t.interrupt_flags_ c = 0
  · rw [if_pos (by simpa using hz)]
    exact ⟨h1, h2, fun _ => ⟨rfl, rfl⟩, fun hne _ => absurd hz hne⟩
  · rw [if_neg (by simpa using hz)]
    refine ⟨h1, h2, fun hc0 => absurd hc0 hz, fun _ hp => ?_⟩
    have hf : t.interrupt_flags_ ≠ 0 := by
      intro h0
      exact hz (by rw [h0]; exact clearFlagBits_zero c)
    exact h4 hf hp

lemma guardInv_PostponeEnter {t : ThreadLocal} (h : GuardInv t) :
    GuardInv (PostponeEnter t) := by
  obtain ⟨h1, h2, h3, h4⟩ := h
  unfold GuardInv PostponeEnter
  exact ⟨h1, h2, h3, fun _ hp => absurd hp (Nat.succ_ne_zero _)⟩

lemma guardInv_PostponeExit {t : ThreadLocal} (h : GuardInv t) :
    GuardInv (PostponeExit t) := by
  obtain ⟨h1, h2, h3, h4⟩ := h
  unfold GuardInv PostponeExit set_interrupt_limits
  by_cases hcond : t.postpone_interrupts_nesting_ - 1 = 0 ∧ t.interrupt_flags_ ≠ 0
  · rw [if_pos (by simpa using hcond)]
    exact ⟨h1, h2, fun hz => absurd hz hcond.2, fun _ _ => ⟨rfl, rfl⟩⟩
  · rw [if_neg (by simpa using hcond)]
    refine ⟨h1, h2, h3, fun hf hp => absurd ⟨hp, hf⟩ hcond⟩

lemma guardInv_step {t t' : ThreadLocal} (h : GuardInv t) (hs : Step t t') :
    GuardInv t' := by
  cases hs with
  | setStackLimit l hl => exact guardInv_SetStackLimit l hl h
  | request c hc =>
      exact guardInv_RequestInterrupt c (mem_interruptCauses_ne_zero hc) h
  | requestApi cb d => exact guardInv_RequestInterruptApi cb d h
  | continueAfter c hc => exact guardInv_Continue c h
  | postponeEnter => exact guardInv_PostponeEnter h
  | postponeExit hp => exact guardInv_PostponeExit h

lemma guardInv_reachable {t : ThreadLocal} (h : Reachable t) : GuardInv t := by
  induction h with
  | init => exact guardInv_initial
  | step _ hs ih => exact guardInv_step ih hs

/-! ### Claim C1 -/

/-- Guard state after setting a real stack limit and then requesting a
generic interrupt, starting from the cleared record. -/
def c1CexState : ThreadLocal :=
  RequestInterrupt INTERRUPT (SetStackLimit 0x1000 initialThreadLocal)

lemma c1CexState_reachable : Reachable c1CexState :=
  Reachable.step
    (Reachable.step Reachable.init
      (Step.setStackLimit initialThreadLocal 0x1000 (by decide)))
    (Step.request (SetStackLimit 0x1000 initialThreadLocal) INTERRUPT (by decide))

/-- C1, counterexample: the claimed invariant `js_limit ≤ real_js_limit` is
violated in a reachable guard state.  After `SetStackLimit 0x1000` and a
single interrupt request, `jslimit_` holds the sentinel
`kInterruptLimit = 0xfffffffffffffffe`, which is far above
`real_jslimit_ = 0x1000`: the sentinel is higher, not lower, than the real
limit. -/
theorem c1_sentinel_direction_counterexample :
    Reachable c1CexState ∧ ¬ (c1CexState.jslimit_ ≤ c1CexState.real_jslimit_) :=
  ⟨c1CexState_reachable, by decide⟩

/-- C1 (amended): in every reachable guard state with no active
postponement, the direction of the invariant is the reverse of the one
claimed: `real_jslimit_ ≤ jslimit_` and `real_climit_ ≤ climit_`.  The
effective limit equals the real limit whenever no interrupt is pending, is
set to the sentinel `kInterruptLimit` — a value *higher* than any real
stack limit, guaranteeing the inline check fails — while an interrupt
should be observed, and equals the real limit again once all pending
causes are cleared. -/
theorem c1_effective_limit_invariant (t : ThreadLocal) (ht : Reachable t)
    (hp : t.postpone_interrupts_nesting_ = 0) :
    t.real_jslimit_ ≤ t.jslimit_ ∧ t.real_climit_ ≤ t.climit_ ∧
    (t.interrupt_flags_ = 0 →
      t.jslimit_ = t.real_jslimit_ ∧ t.climit_ = t.real_climit_) ∧
    (t.interrupt_flags_ ≠ 0 →
      t.jslimit_ = kInterruptLimit ∧ t.climit_ = kInterruptLimit) := by
  obtain ⟨h1, h2, h3, h4⟩ := guardInv_reachable ht
  by_cases hf : t.interrupt_flags_ = 0
  · obtain ⟨e1, e2⟩ := h3 hf
    exact ⟨le_of_eq e1.symm, le_of_eq e2.symm, fun _ => ⟨e1, e2⟩,
      fun hne => absurd hf hne⟩
  · obtain ⟨e1, e2⟩ := h4 hf hp
    refine ⟨?_, ?_, fun hz => absurd hz hf, fun _ => ⟨e1, e2⟩⟩
    · rw [e1]; exact h1
    · rw [e2]; exact h2

/-- C1, witness: the amended invariant evaluated in the concrete reachable
state `c1CexState`. -/
theorem c1_effective_limit_invariant_witness :
    c1CexState.postpone_interrupts_nesting_ = 0 ∧
    (c1CexState.real_jslimit_ ≤ c1CexState.jslimit_ ∧
     c1CexState.real_climit_ ≤ c1CexState.climit_ ∧
     (c1CexState.interrupt_flags_ = 0 →
       c1CexState.jslimit_ = c1CexState.real_jslimit_ ∧
       c1CexState.climit_ = c1CexState.real_climit_) ∧
     (c1CexState.interrupt_flags_ ≠ 0 →
       c1CexState.jslimit_ = kInterruptLimit ∧
       c1CexState.climit_ = kInterruptLimit)) :=
  ⟨by decide, c1_effective_limit_invariant c1CexState c1CexState_reachable (by decide)⟩

/-! ### Claim C2 -/

/-- C2: for every stack pointer `P` above the real limit, if an interrupt
request leaves `jslimit_` below `P` but above `real_jslimit_`, the trapped
stack check is classified as an interrupt and not as a stack overflow; and
every stack pointer below `real_jslimit_` is classified as a stack
overflow regardless of which bits are set in `pending_causes`. -/
theorem c2_overflow_vs_interrupt_classification (t : ThreadLocal)
    (c P Q : Nat) (hc : c ∈ interruptCauses) :
    ((RequestInterrupt c t).real_jslimit_ < P →
     (RequestInterrupt c t).jslimit_ < P →
     (RequestInterrupt c t).real_jslimit_ < (RequestInterrupt c t).jslimit_ →
     HandleStackGuardInterrupt P (RequestInterrupt c t) = TrapClass.interrupt) ∧
    (Q < t.real_jslimit_ →
     HandleStackGuardInterrupt Q t = TrapClass.stackOverflow) := by
  constructor
  · intro h1 _ _
    unfold HandleStackGuardInterrupt
    rw [if_neg (Nat.not_lt.mpr (Nat.le_of_lt h1))]
  · intro h1
    unfold HandleStackGuardInterrupt
    rw [if_pos h1]

/-- C2, witness: with the real limit at `0x1000`, a generic interrupt
request (which moves `jslimit_` to the sentinel), a stack pointer
`P = 0xffffffffffffffff` above the lowered-check threshold, and a stack
pointer `Q = 0x500` below the real limit. -/
theorem c2_overflow_vs_interrupt_classification_witness :
    HandleStackGuardInterrupt 0xffffffffffffffff
      (RequestInterrupt INTERRUPT (SetStackLimit 0x1000 initialThreadLocal)) =
      TrapClass.interrupt ∧
    HandleStackGuardInterrupt 0x500 (SetStackLimit 0x1000 initialThreadLocal) =
      TrapClass.stackOverflow := by
  have h := c2_overflow_vs_interrupt_classification
    (SetStackLimit 0x1000 initialThreadLocal) INTERRUPT
    0xffffffffffffffff 0x500 (by decide)
  exact ⟨h.1 (by decide) (by decide) (by decide), h.2 (by decide)⟩

/-! ### Claim C3 -/

/-- C3: while `postpone_interrupts_nesting_ > 0`, every interrupt-request
operation (both the cause variant and the API-callback variant) records
its bit in `interrupt_flags_` but leaves `jslimit_`/`climit_` unchanged;
and a postpone-scope exit that brings the nesting count back to zero with
a non-empty pending set applies the sentinel to both effective limits
while preserving the pending set, so no postponed request is dropped. -/
theorem c3_postponement_correctness (t : ThreadLocal) (c cb d : Nat)
    (hc : c ∈ interruptCauses) :
    (0 < t.postpone_interrupts_nesting_ →
      (RequestInterrupt c t).jslimit_ = t.jslimit_ ∧
      (RequestInterrupt c t).climit_ = t.climit_ ∧
      (RequestInterrupt c t).interrupt_flags_ = t.interrupt_flags_ ||| c ∧
      (RequestInterruptApi cb d t).jslimit_ = t.jslimit_ ∧
      (RequestInterruptApi cb d t).climit_ = t.climit_ ∧
      (RequestInterruptApi cb d t).interrupt_flags_ =
        t.interrupt_flags_ ||| API_INTERRUPT) ∧
    (t.postpone_interrupts_nesting_ = 1 → t.interrupt_flags_ ≠ 0 →
      (PostponeExit t).jslimit_ = kInterruptLimit ∧
      (PostponeExit t).climit_ = kInterruptLimit ∧
      (PostponeExit t).interrupt_flags_ = t.interrupt_flags_) := by
  constructor
  · intro hp
    obtain ⟨e1, e2⟩ := RequestInterrupt_limits_of_postponed c t hp
    obtain ⟨e3, e4⟩ := RequestInterrupt_limits_of_postponed API_INTERRUPT
      { t with interrupt_callback_ := cb, interrupt_callback_data_ := d } hp
    exact ⟨e1, e2, RequestInterrupt_interrupt_flags c t, e3, e4,
      RequestInterrupt_interrupt_flags API_INTERRUPT _⟩
  · intro hp hf
    unfold PostponeExit set_interrupt_limits
    dsimp only
    rw [hp]
    rw [if_pos (by exact ⟨rfl, hf⟩)]
    exact ⟨rfl, rfl, rfl⟩

/-- A guard state one postpone level deep with the generic interrupt cause
already pending. -/
def c3WitnessState : ThreadLocal :=
  { initialThreadLocal with postpone_interrupts_nesting_ := 1, interrupt_flags_ := 1 }

/-- C3, witness: a GC request issued while postponed leaves the effective
limit alone, and the postpone-scope exit applies the sentinel. -/
theorem c3_postponement_correctness_witness :
    (RequestInterrupt GC_REQUEST c3WitnessState).jslimit_ = c3WitnessState.jslimit_ ∧
    (PostponeExit c3WitnessState).jslimit_ = kInterruptLimit :=
  ⟨((c3_postponement_correctness c3WitnessState GC_REQUEST 5 7
      (by decide)).1 (by decide)).1,
    ((c3_postponement_correctness c3WitnessState GC_REQUEST 5 7
      (by decide)).2 (by decide) (by decide)).1⟩

/-! ### Claim C4 -/

/-- C4: requesting the same cause twice with no intervening clear leaves
`interrupt_flags_` exactly as after a single request — the pending set is
an idempotent bitset, not a counter. -/
theorem c4_request_idempotent (t : ThreadLocal) (c : Nat) :
    (RequestInterrupt c (RequestInterrupt c t)).interrupt_flags_ =
      (RequestInterrupt c t).interrupt_flags_ := by
  rw [RequestInterrupt_interrupt_flags, RequestInterrupt_interrupt_flags,
    Nat.or_assoc, Nat.or_self]

/-! ### Claim C5 -/

/-- The pending-causes word obtained by OR-ing together the subset of the
ten causes selected by the low ten bits of `s`. -/
def causeMaskOfNat (s : Nat) : Nat :=
  (List.range 10).foldr
    (fun i a => (if s.testBit i then interruptCauses.getD i 0 else 0) ||| a) 0

set_option maxRecDepth 40000 in
/-- C5: the interrupt causes are exactly the ten enumerators of
`InterruptFlag`, each a distinct single-bit flag (`1 <<< 0` through
`1 <<< 9`, i.e. the powers of two `2^0 .. 2^9`); distinct causes have
disjoint bit representations, and OR-ing any subset of causes into
`pending_causes` is collision-free: the resulting word is exactly the
subset's characteristic bit pattern, so distinct subsets give distinct
words. -/
theorem c5_cause_bitset :
    interruptCauses.length = 10 ∧
    interruptCauses = (List.range 10).map (fun i => 2 ^ i) ∧
    (∀ i : Fin 10, ∀ j : Fin 10, i ≠ j →
      interruptCauses.getD i.val 0 &&& interruptCauses.getD j.val 0 = 0) ∧
    (∀ s : Fin 1024, causeMaskOfNat s.val = s.val) ∧
    (∀ s s' : Fin 1024,
      causeMaskOfNat s.val = causeMaskOfNat s'.val → s = s') := by
  refine ⟨by decide, by decide, by decide, ?_, ?_⟩
  · decide
  · intro s s' h
    have hs := (by decide : ∀ s : Fin 1024, causeMaskOfNat s.val = s.val) s
    have hs' := (by decide : ∀ s : Fin 1024, causeMaskOfNat s.val = s.val) s'
    rw [hs, hs'] at h
    exact Fin.val_injective h

/-- C5, witness: two concrete distinct causes are bit-disjoint, and the
full subset of all ten causes round-trips through `pending_causes`. -/
theorem c5_cause_bitset_witness :
    interruptCauses.getD 0 0 &&& interruptCauses.getD 9 0 = 0 ∧
    causeMaskOfNat 0x3ff = 0x3ff :=
  ⟨c5_cause_bitset.2.2.1 0 9 (by decide),
    c5_cause_bitset.2.2.2.1 ⟨0x3ff, by decide⟩⟩

/-! ### Claims C6 and C10: the archive buffer -/

/-- Byte width of a `uintptr_t` / pointer field on the modelled 64-bit
target. -/
def kPointerSize : Nat := 8

/-- Byte width of a C++ `int` field. -/
def kIntSize : Nat := 4

/-- `StackGuard::ArchiveSpacePerThread` (execution.h line 166) returns
`sizeof(ThreadLocal)`.  Modelled from the spec: the archive buffer size is
the "sum of the per-thread record's fields" — four `uintptr_t` limits,
three `int` counters, and the callback/data pointer pair (`sizeof`
padding is a platform matter outside the embedding). -/
def ArchiveSpacePerThread : Nat :=
  4 * kPointerSize + 3 * kIntSize + 2 * kPointerSize

/-- Little-endian byte encoding of `n` into exactly `w` bytes. -/
def toBytesLE : Nat → Nat → List Nat
  | 0, _ => []
  | w + 1, n => n % 256 :: toBytesLE w (n / 256)

/-- Little-endian byte decoding. -/
def ofBytesLE : List Nat → Nat
  | [] => 0
  | b :: bs => b + 256 * ofBytesLE bs

lemma length_toBytesLE (w n : Nat) : (toBytesLE w n).length = w := by
  induction w generalizing n with
  | zero => rfl
  | succ w ih => simp [toBytesLE, ih]

lemma ofBytesLE_toBytesLE (w n : Nat) (h : n < 256 ^ w) :
    ofBytesLE (toBytesLE w n) = n := by
  induction w generalizing n with
  | zero =>
      have hn : n = 0 := Nat.lt_one_iff.mp (by simpa using h)
      simp [toBytesLE, ofBytesLE, hn]
  | succ w ih =>
      have hdiv : n / 256 < 256 ^ w := by
        rw [Nat.div_lt_iff_lt_mul (by norm_num : 0 < 256)]
        calc n < 256 ^ (w + 1) := h
          _ = 256 ^ w * 256 := by rw [Nat.pow_succ]
      simp only [toBytesLE, ofBytesLE, ih _ hdiv]
      exact Nat.mod_add_div n 256

lemma take_toBytesLE_append (w n : Nat) (rest : List Nat) :
    (toBytesLE w n ++ rest).take w = toBytesLE w n := by
  have h := List.take_left (toBytesLE w n) rest
  rwa [length_toBytesLE] at h

lemma drop_toBytesLE_append (w n : Nat) (rest : List Nat) :
    (toBytesLE w n ++ rest).drop w = rest := by
  have h := List.drop_left (toBytesLE w n) rest
  rwa [length_toBytesLE] at h

lemma take_toBytesLE (w n : Nat) : (toBytesLE w n).take w = toBytesLE w n := by
  have h := List.take_length (toBytesLE w n)
  rwa [length_toBytesLE] at h

/-- Modelled from the spec (the body of `StackGuard::ArchiveStackGuard` is
in the missing execution.cc): the per-thread record serialized field by
field into the archive byte buffer, in declaration order. -/
def serializeThreadLocal (t : ThreadLocal) : List Nat :=
  toBytesLE kPointerSize t.real_jslimit_ ++
  (toBytesLE kPointerSize t.jslimit_ ++
  (toBytesLE kPointerSize t.real_climit_ ++
  (toBytesLE kPointerSize t.climit_ ++
  (toBytesLE kIntSize t.nesting_ ++
  (toBytesLE kIntSize t.postpone_interrupts_nesting_ ++
  (toBytesLE kIntSize t.interrupt_flags_ ++
  (toBytesLE kPointerSize t.interrupt_callback_ ++
  toBytesLE kPointerSize t.interrupt_callback_data_)))))))

/-- Modelled from the spec (the body of `StackGuard::RestoreStackGuard` is
in the missing execution.cc): the per-thread record read back from the
archive byte buffer. -/
def deserializeThreadLocal (bs : List Nat) : ThreadLocal :=
  let b1 := bs.drop 8
  let b2 := b1.drop 8
  let b3 := b2.drop 8
  let b4 := b3.drop 8
  let b5 := b4.drop 4
  let b6 := b5.drop 4
  let b7 := b6.drop 4
  let b8 := b7.drop 8
  { real_jslimit_ := ofBytesLE (bs.take 8)
  , jslimit_ := ofBytesLE (b1.take 8)
  , real_climit_ := ofBytesLE (b2.take 8)
  , climit_ := ofBytesLE (b3.take 8)
  , nesting_ := ofBytesLE (b4.take 4)
  , postpone_interrupts_nesting_ := ofBytesLE (b5.take 4)
  , interrupt_flags_ := ofBytesLE (b6.take 4)
  , interrupt_callback_ := ofBytesLE (b7.take 8)
  , interrupt_callback_data_ := ofBytesLE (b8.take 8) }

/-- Modelled from the spec: `char* ArchiveStackGuard(char* to)` writes the
record at `to` and returns the input pointer advanced past it. -/
def ArchiveStackGuard (t : ThreadLocal) (toPos : Nat) : List Nat × Nat :=
  (serializeThreadLocal t, toPos + ArchiveSpacePerThread)

/-- Modelled from the spec: `char* RestoreStackGuard(char* from)` reads the
record at `from` and returns the input pointer advanced past it. -/
def RestoreStackGuard (buf : List Nat) (fr : Nat) : ThreadLocal × Nat :=
  (deserializeThreadLocal buf, fr + ArchiveSpacePerThread)

/-- Every field value fits its underlying C++ field width (automatic in the
C++ code, where the fields are fixed-width machine words). -/
def WellFormedThreadLocal (t : ThreadLocal) : Prop :=
  t.real_jslimit_ < 256 ^ kPointerSize ∧
  t.jslimit_ < 256 ^ kPointerSize ∧
  t.real_climit_ < 256 ^ kPointerSize ∧
  t.climit_ < 256 ^ kPointerSize ∧
  t.nesting_ < 256 ^ kIntSize ∧
  t.postpone_interrupts_nesting_ < 256 ^ kIntSize ∧
  t.interrupt_flags_ < 256 ^ kIntSize ∧
  t.interrupt_callback_ < 256 ^ kPointerSize ∧
  t.interrupt_callback_data_ < 256 ^ kPointerSize

lemma deserialize_serialize (t : ThreadLocal) (h : WellFormedThreadLocal t) :
    deserializeThreadLocal (serializeThreadLocal t) = t := by
  obtain ⟨h1, h2, h3, h4, h5, h6, h7, h8, h9⟩ := h
  simp only [serializeThreadLocal, deserializeThreadLocal, kPointerSize, kIntSize,
    take_toBytesLE_append, drop_toBytesLE_append, take_toBytesLE]
  rw [ofBytesLE_toBytesLE 8 _ h1, ofBytesLE_toBytesLE 8 _ h2,
    ofBytesLE_toBytesLE 8 _ h3, ofBytesLE_toBytesLE 8 _ h4,
    ofBytesLE_toBytesLE 4 _ h5, ofBytesLE_toBytesLE 4 _ h6,
    ofBytesLE_toBytesLE 4 _ h7, ofBytesLE_toBytesLE 8 _ h8,
    ofBytesLE_toBytesLE 8 _ h9]

/-- C6: the archive buffer for thread handoff has a fixed,
compile-time-known size: for every per-thread record the serialized form
occupies exactly `ArchiveSpacePerThread` bytes, and that constant is the
sum of the record's field widths. -/
theorem c6_archive_space_fixed (t : ThreadLocal) :
    (serializeThreadLocal t).length = ArchiveSpacePerThread ∧
    ArchiveSpacePerThread = 4 * kPointerSize + 3 * kIntSize + 2 * kPointerSize := by
  constructor
  · simp [serializeThreadLocal, List.length_append, length_toBytesLE,
      ArchiveSpacePerThread, kPointerSize, kIntSize]
  · rfl

/-- C10: archive/restore round-trips the per-thread guard record —
restoring from a buffer produced by archiving reproduces the same record —
and each operation returns its buffer pointer advanced by exactly
`ArchiveSpacePerThread` bytes. -/
theorem c10_archive_restore_roundtrip (t : ThreadLocal)
    (hw : WellFormedThreadLocal t) (toP frP : Nat) (buf : List Nat) :
    (RestoreStackGuard (ArchiveStackGuard t toP).1 frP).1 = t ∧
    (ArchiveStackGuard t toP).2 = toP + ArchiveSpacePerThread ∧
    (RestoreStackGuard buf frP).2 = frP + ArchiveSpacePerThread :=
  ⟨deserialize_serialize t hw, rfl, rfl⟩

/-- A concrete, fully populated guard record. -/
def c10WitnessState : ThreadLocal :=
  { real_jslimit_ := 0x1000
  , jslimit_ := kInterruptLimit
  , real_climit_ := 0x2000
  , climit_ := 0x77
  , nesting_ := 2
  , postpone_interrupts_nesting_ := 1
  , interrupt_flags_ := 0x155
  , interrupt_callback_ := 0xdeadbeef
  , interrupt_callback_data_ := 42 }

/-- C10, witness: the round trip evaluated on a concrete record and
concrete buffer positions. -/
theorem c10_archive_restore_roundtrip_witness :
    WellFormedThreadLocal c10WitnessState ∧
    ((RestoreStackGuard (ArchiveStackGuard c10WitnessState 100).1 200).1 =
        c10WitnessState ∧
      (ArchiveStackGuard c10WitnessState 100).2 = 100 + ArchiveSpacePerThread ∧
      (RestoreStackGuard [] 200).2 = 200 + ArchiveSpacePerThread) := by
  have hw : WellFormedThreadLocal c10WitnessState := by
    unfold WellFormedThreadLocal
    decide
  exact ⟨hw, c10_archive_restore_roundtrip c10WitnessState hw 100 200 []⟩

/-! ### Claim C7: LockGuard -/

/-- An acquire or release performed on the guarded lock. -/
inductive LockEvent where
  | lock
  | unlock
deriving DecidableEq

/-- `LockGuard` (mutex.h lines 228-238), embedded as the bracketing it
imposes on a scope: the constructor runs `mutex_->Lock()` before the scope
body, and the destructor runs `mutex_->Unlock()` after it on every exit
path.  The body is an arbitrary computation that may finish normally
(`Except.ok`) or leave the scope early by propagating an error
(`Except.error`), and may itself perform lock events of its own; either
way the guard contributes exactly its two bracketing events. -/
def LockGuardScope {σ ε : Type} (body : σ → Except ε σ × List LockEvent)
    (s : σ) : Except ε σ × List LockEvent :=
  let r := body s
  (r.1, LockEvent.lock :: (r.2 ++ [LockEvent.unlock]))

/-- C7: for every scope body — including ones that exit by error — a
`LockGuard` adds exactly one `Lock()` and exactly one `Unlock()` on its
lock, with the acquire before the body's own events and the release after
them, and it does not alter the body's outcome. -/
theorem c7_lockguard_pairs_lock_unlock {σ ε : Type}
    (body : σ → Except ε σ × List LockEvent) (s : σ) :
    (LockGuardScope body s).2 =
      LockEvent.lock :: ((body s).2 ++ [LockEvent.unlock]) ∧
    (LockGuardScope body s).2.count LockEvent.lock =
      (body s).2.count LockEvent.lock + 1 ∧
    (LockGuardScope body s).2.count LockEvent.unlock =
      (body s).2.count LockEvent.unlock + 1 ∧
    (LockGuardScope body s).1 = (body s).1 := by
  refine ⟨rfl, ?_, ?_, rfl⟩
  · simp [LockGuardScope, List.count_cons, List.count_append]
  · simp [LockGuardScope, List.count_cons, List.count_append]

/-! ### Claim C8: the API interrupt callback -/

/-- C8: `RequestInterrupt(callback, data)` stores the callback/data pair
and sets the `API_INTERRUPT` cause bit (bit 8); a second registration
before the first is handled replaces the stored pair — last writer wins —
and only that single pair is ever held. -/
theorem c8_api_callback_last_writer_wins (t : ThreadLocal)
    (cb1 d1 cb2 d2 : Nat) :
    (RequestInterruptApi cb1 d1 t).interrupt_callback_ = cb1 ∧
    (RequestInterruptApi cb1 d1 t).interrupt_callback_data_ = d1 ∧
    (RequestInterruptApi cb1 d1 t).interrupt_flags_.testBit 8 = true ∧
    (RequestInterruptApi cb2 d2 (RequestInterruptApi cb1 d1 t)).interrupt_callback_ = cb2 ∧
    (RequestInterruptApi cb2 d2 (RequestInterruptApi cb1 d1 t)).interrupt_callback_data_ = d2 ∧
    (RequestInterruptApi cb2 d2 (RequestInterruptApi cb1 d1 t)).interrupt_flags_.testBit 8 = true := by
  have hbit : ∀ u : ThreadLocal, ∀ cb d : Nat,
      (RequestInterruptApi cb d u).interrupt_flags_.testBit 8 = true := by
    intro u cb d
    unfold RequestInterruptApi
    rw [RequestInterrupt_interrupt_flags]
    simp only [Nat.testBit_or, Bool.or_eq_true]
    exact Or.inr (by decide)
  have hcb : ∀ u : ThreadLocal, ∀ cb d : Nat,
      (RequestInterruptApi cb d u).interrupt_callback_ = cb := by
    intro u cb d
    unfold RequestInterruptApi
    rw [RequestInterrupt_callback]
  have hd : ∀ u : ThreadLocal, ∀ cb d : Nat,
      (RequestInterruptApi cb d u).interrupt_callback_data_ = d := by
    intro u cb d
    unfold RequestInterruptApi
    rw [RequestInterrupt_callback_data]
  exact ⟨hcb t cb1 d1, hd t cb1 d1, hbit t cb1 d1,
    hcb _ cb2 d2, hd _ cb2 d2, hbit _ cb2 d2⟩

/-! ### Claim C9: has_pending_interrupts -/

/-- C9: `has_pending_interrupts` carries the unstated precondition that
interrupts are not currently postponed (its `ASSERT` checks
`!should_postpone_interrupts(lock)`).  Under the precondition
`postpone_interrupts_nesting_ = 0` the assertion cannot fire and the
function returns exactly `interrupt_flags_ != 0`. -/
theorem c9_has_pending_interrupts_precondition (t : ThreadLocal)
    (hp : t.postpone_interrupts_nesting_ = 0) :
    has_pending_interrupts t = some (decide (t.interrupt_flags_ ≠ 0)) ∧
    has_pending_interrupts t ≠ none ∧
    (has_pending_interrupts t = some true ↔ t.interrupt_flags_ ≠ 0) := by
  have hsp : should_postpone_interrupts t = false := by
    unfold should_postpone_interrupts
    simp [hp]
  unfold has_pending_interrupts
  rw [hsp]
  refine ⟨rfl, by simp, ?_⟩
  constructor
  · intro h
    have := Option.some.inj h
    simpa using of_decide_eq_true this
  · intro h
    simp [h]

/-- C9, witness: in the state `c10WitnessState` with the postpone counter
zeroed, the flags word `0x155` is non-zero and `has_pending_interrupts`
reports it. -/
theorem c9_has_pending_interrupts_precondition_witness :
    has_pending_interrupts { c10WitnessState with postpone_interrupts_nesting_ := 0 } =
      some (decide (ThreadLocal.interrupt_flags_
        { c10WitnessState with postpone_interrupts_nesting_ := 0 } ≠ 0)) ∧
    has_pending_interrupts { c10WitnessState with postpone_interrupts_nesting_ := 0 } ≠ none ∧
    (has_pending_interrupts { c10WitnessState with postpone_interrupts_nesting_ := 0 } = some true ↔
      ThreadLocal.interrupt_flags_
        { c10WitnessState with postpone_interrupts_nesting_ := 0 } ≠ 0) :=
  c9_has_pending_interrupts_precondition
    { c10WitnessState with postpone_interrupts_nesting_ := 0 } rfl

end V8
